import Mathlib

/-!
Shallow embedding of the PDF-ChatBot backend (FastAPI + RAG pipeline).

The embedding covers, faithfully to the Python source:
  * `src/utils/text_splitter.py`  — `split_text` (chunker);
  * `src/services/pdf_service.py` — `PDFProcessor` (extract, build, save,
    load, `process_pdf`, `get_or_create_knowledge_base`);
  * `src/models/pdf_chat.py`      — `PDFChat` and `ChatStorage`;
  * `src/services/chat_service.py`— `ChatService.get_response` and the
    search→model workflow;
  * `src/api/v1/endpoints/chat.py`— the boundary mapping of errors to HTTP
    outcomes.

External collaborators (the OpenAI embedding/LLM providers and the FAISS
vector index) are modelled through the capability contracts the spec gives
for them: similarity search and completion are abstract functions supplied
in a `Providers` record; an index is determined by the chunk texts it was
built from.  Python exceptions are modelled by an `Except` result with an
error type distinguishing the two exception classes the service raises
(`ValueError` / `RuntimeError`), since the boundary layer dispatches on
exactly that distinction.  Ambient state (session registry, persisted index
store, the file system, the clock, disk writability) is an explicit
`SysState` threaded through every operation; an operation that mutates
state before raising returns the mutated state alongside the error, exactly
as the Python code leaves its global state behind.
-/

set_option maxRecDepth 100000

namespace PdfBot

/-! ### Association lists: Python `dict` keyed by strings -/

/-- Python `dict.get`: first binding of the key, if any. -/
def alist_lookup {α : Type} : List (String × α) → String → Option α
  | [], _ => none
  | (k, v) :: rest, key => if k = key then some v else alist_lookup rest key

/-- Python `dict[key] = v`: replace the binding if present, else append. -/
def alist_insert {α : Type} : List (String × α) → String → α → List (String × α)
  | [], key, v => [(key, v)]
  | (k, w) :: rest, key, v =>
    if k = key then (key, v) :: rest else (k, w) :: alist_insert rest key v

/-- Removal of a key (used to model external deletion of a persisted file). -/
def alist_erase {α : Type} (l : List (String × α)) (key : String) : List (String × α) :=
  l.filter (fun p => ¬ p.1 = key)

/-! ### Python string helpers -/

/-- The characters Python's `str.strip()` removes. -/
def is_py_space (c : Char) : Bool :=
  c = ' ' || c = '\t' || c = '\n' || c = '\r' || c = '\x0b' || c = '\x0c'

/-- Python `str.strip()`: drop leading and trailing whitespace. -/
def py_strip (s : String) : String :=
  String.mk (((s.data.dropWhile is_py_space).reverse.dropWhile is_py_space).reverse)

/-- Split a character list at every occurrence of the character `c`,
Python `re.split(re.escape(sep), text)` for the single-character separator
used by the chunker (the empty text yields one empty piece, exactly as in
Python). -/
def split_on_char (c : Char) : List Char → List (List Char)
  | [] => [[]]
  | a :: rest =>
    match split_on_char c rest with
    | [] => [[]]
    | grp :: grps => if a = c then [] :: grp :: grps else (a :: grp) :: grps

/-! ### The chunker (`src/utils/text_splitter.py`)

Modelled from the spec: the Chunker contract of §4.1 — split the text on the
separator first, then greedily pack the pieces into chunks, carrying at most
`chunk_overlap` characters from the tail of one chunk into the head of the
next.  The repository's `split_text` delegates to the
`CharacterTextSplitter` of the `langchain` library, whose source is not part
of this repository; the model realises the spec's split-then-pack-with-
overlap algorithm at the level of detail that library documents: empty
pieces produced by the separator split are dropped, pieces are joined back
with the separator, every emitted chunk is whitespace-stripped and empty
chunks are dropped, and the overlap carried into the next chunk consists of
whole trailing pieces whose total length (separators included) does not
exceed `chunk_overlap`.  A single piece longer than `chunk_size` is kept
whole (the library only logs a warning), so a chunk may exceed
`chunk_size`. -/

/-- Join the pending pieces with the separator and strip the result;
an empty result is discarded (`None`). -/
def join_docs (docs : List String) (sep : String) : Option String :=
  let text := py_strip (String.intercalate sep docs)
  if text = "" then none else some text

/-- Drop pieces from the front of the pending chunk until its length is
within `chunk_overlap` and the next piece (of length `dlen`) would fit into
`chunk_size`; returns the remaining pieces and their running total. -/
def pop_overlap (chunk_size chunk_overlap sep_len dlen : Nat) :
    List String → Nat → List String × Nat
  | [], total => ([], total)
  | c :: rest, total =>
    if total > chunk_overlap ∨
        (total + dlen + (if (c :: rest).length > 0 then sep_len else 0) > chunk_size
          ∧ total > 0) then
      pop_overlap chunk_size chunk_overlap sep_len dlen rest
        (total - (c.length + if (c :: rest).length > 1 then sep_len else 0))
    else (c :: rest, total)

/-- Greedy merge of the separator pieces into chunks: accumulate pieces
while the joined length stays within `chunk_size`; on overflow emit the
pending chunk and carry trailing pieces totalling at most `chunk_overlap`
characters into the next one. -/
def merge_go (chunk_size chunk_overlap : Nat) (sep : String) :
    List String → List String → Nat → List String → List String
  | [], current_doc, _total, docs => docs ++ (join_docs current_doc sep).toList
  | d :: rest, current_doc, total, docs =>
    let sep_len := sep.length
    let dlen := d.length
    let over := total + dlen + (if current_doc.length > 0 then sep_len else 0) > chunk_size
    let step :=
      if over ∧ current_doc.length > 0 then
        let docs1 := docs ++ (join_docs current_doc sep).toList
        let pop := pop_overlap chunk_size chunk_overlap sep_len dlen current_doc total
        (docs1, pop.1, pop.2)
      else (docs, current_doc, total)
    let cur2 := step.2.1 ++ [d]
    let tot2 := step.2.2 + dlen + (if cur2.length > 1 then sep_len else 0)
    merge_go chunk_size chunk_overlap sep rest cur2 tot2 step.1

/-- The chunker with explicit parameters: separator split (empty pieces
dropped), then the greedy merge. -/
def split_text_with (chunk_size chunk_overlap : Nat) (sep : Char) (text : String) :
    List String :=
  let splits := ((split_on_char sep text.data).map String.mk).filter (fun s => ¬ s = "")
  merge_go chunk_size chunk_overlap (String.mk [sep]) splits [] 0 []

/-- `split_text` of `src/utils/text_splitter.py`: separator `"\n"`,
`chunk_size = 1000`, `chunk_overlap = 200`, length measured in
characters. -/
def split_text (text : String) : List String :=
  split_text_with 1000 200 '\n' text

/-! ### Providers and the vector index

The OpenAI embedding and chat models and the FAISS index are external
collaborators; the spec consumes them through capability contracts
("similarity search", "generate completion").  An index is determined by
the chunk texts it was built from (`FAISS.from_texts`); similarity search
and completion are abstract total functions supplied by a `Providers`
record, so every theorem below is universally quantified over the provider
behaviour. -/

/-- A FAISS vector index, determined by the chunk texts it was built
from. -/
structure Index where
  texts : List String
  deriving DecidableEq

/-- `FAISS.from_texts(chunks, embeddings)`: builds the index over the
chunks; raises when the chunk list is empty (the spec's §4.1 edge case —
a knowledge base with zero chunks is a hard failure). -/
def from_texts (texts : List String) : Except String Index :=
  if texts = [] then .error "list index out of range" else .ok ⟨texts⟩

/-- Provider capabilities: `search idx.texts query k` is
`FAISS.similarity_search(query, k)` on the index, returning the
`page_content` of the top-`k` chunks in relevance order; `llm prompt` is
`ChatOpenAI().invoke(prompt).content`. -/
structure Providers where
  search : List String → String → Nat → List String
  llm : String → String

/-! ### Python exceptions and the data model (`src/models/pdf_chat.py`) -/

/-- The two exception classes the services raise; the boundary layer
dispatches on exactly this distinction. -/
inductive PyErr
  | valueError (msg : String)
  | runtimeError (msg : String)
  deriving DecidableEq

/-- One history entry, the dict
`{"user": question, "ai": answer, "timestamp": ts}` appended by
`get_response`. -/
structure ChatMessage where
  user : String
  ai : String
  timestamp : Nat
  deriving DecidableEq

/-- The metadata dict stored on a `PDFChat`
(`{"file_path": ..., "created_at": ..., "file_name": ...}`); `file_path` is
optional because `metadata.get("file_path")` may be absent on a
default-constructed record. -/
structure Metadata where
  file_path : Option String
  file_name : String
  created_at : Nat
  deriving DecidableEq

/-- `PDFChat` dataclass: a chat session record. -/
structure PDFChat where
  knowledge_base : Index
  messages : List ChatMessage
  metadata : Metadata
  created_at : Nat
  deriving DecidableEq

/-- Python truthiness of `metadata.get("file_path")`: `None` and the empty
string are falsy. -/
def truthy_file_path : Option String → Bool
  | none => false
  | some p => ¬ p = ""

/-- Decidable equality for modelled exception results. -/
instance {ε α : Type} [DecidableEq ε] [DecidableEq α] : DecidableEq (Except ε α)
  | .error a, .error b =>
    if h : a = b then .isTrue (by rw [h])
    else .isFalse (fun hc => by cases hc; exact h rfl)
  | .error _, .ok _ => .isFalse (fun hc => by cases hc)
  | .ok _, .error _ => .isFalse (fun hc => by cases hc)
  | .ok a, .ok b =>
    if h : a = b then .isTrue (by rw [h])
    else .isFalse (fun hc => by cases hc; exact h rfl)

/-- The ambient mutable state threaded through every operation:
`chat_storage` is the in-memory session registry (`ChatStorage._storage`);
`embeddings_store` the persisted FAISS indexes on disk, keyed by the chat
id the path is derived from; `files` the file system of PDF files, each a
list of pages whose `extract_text()` either returns text (possibly empty)
or raises with a message; `now` the clock read by
`datetime.utcnow().isoformat()` (an abstract tick); `can_write` whether
disk writes succeed (disk-full / permission failures of `save_local`). -/
structure SysState where
  chat_storage : List (String × PDFChat)
  embeddings_store : List (String × Index)
  files : List (String × List (Except String String))
  now : Nat
  can_write : Bool
  deriving DecidableEq

/-! ### `src/services/pdf_service.py` — `PDFProcessor` -/

/-- `"".join(page.extract_text() for page in pages if page.extract_text())`:
pages are consumed in order; a page whose extraction raises aborts the
whole join, a page yielding empty text contributes nothing. -/
def join_pages : List (Except String String) → Except String String
  | [] => .ok ""
  | .error e :: _ => .error e
  | .ok t :: rest =>
    match join_pages rest with
    | .error e => .error e
    | .ok r => .ok ((if t = "" then "" else t) ++ r)

/-- `PDFProcessor._extract_text_from_pdf`: open the file, join the
per-page extractions, and wrap any exception into
`RuntimeError("Failed to extract text from PDF: ...")`. -/
def extract_text_from_pdf (files : List (String × List (Except String String)))
    (file_path : String) : Except PyErr String :=
  match alist_lookup files file_path with
  | none =>
    .error (.runtimeError ("Failed to extract text from PDF: No such file or directory: "
      ++ file_path))
  | some pages =>
    match join_pages pages with
    | .error e => .error (.runtimeError ("Failed to extract text from PDF: " ++ e))
    | .ok t => .ok t

/-- `PDFProcessor._create_knowledge_base`: chunk the text and build the
index; any exception is wrapped into
`RuntimeError("Failed to create knowledge base: ...")`. -/
def create_knowledge_base (text : String) : Except PyErr Index :=
  match from_texts (split_text text) with
  | .error e => .error (.runtimeError ("Failed to create knowledge base: " ++ e))
  | .ok kb => .ok kb

/-- `PDFProcessor._save_knowledge_base`: write the index to the path
derived from the chat id, overwriting any prior index; a failed write
(disk full, permission — modelled by `can_write = false`) leaves the store
unchanged and raises `RuntimeError("Failed to save knowledge base: ...")`. -/
def save_knowledge_base (st : SysState) (chat_id : String) (kb : Index) :
    SysState × Except PyErr Unit :=
  if st.can_write then
    ({ st with embeddings_store := alist_insert st.embeddings_store chat_id kb }, .ok ())
  else
    (st, .error (.runtimeError "Failed to save knowledge base: write failed"))

/-- `PDFProcessor._load_knowledge_base`: return the persisted index if the
path for the chat id exists, else `None`. -/
def load_knowledge_base (store : List (String × Index)) (chat_id : String) :
    Option Index :=
  alist_lookup store chat_id

/-- The outer wrapper of `process_pdf`:
`except Exception as e: raise RuntimeError(f"Failed to process PDF: ...")`. -/
def wrap_process : PyErr → PyErr
  | .valueError m => .runtimeError ("Failed to process PDF: " ++ m)
  | .runtimeError m => .runtimeError ("Failed to process PDF: " ++ m)

/-- `PDFProcessor.process_pdf`: extract the text, build and persist the
knowledge base, then register a fresh session with empty history and
metadata; the freshly generated uuid is passed in as `chat_id`.  A failure
at any step leaves the mutations performed so far in place and raises; the
session is registered only after every prior step succeeded. -/
def process_pdf (st : SysState) (chat_id file_path : String) :
    SysState × Except PyErr String :=
  match extract_text_from_pdf st.files file_path with
  | .error e => (st, .error (wrap_process e))
  | .ok text =>
    match create_knowledge_base text with
    | .error e => (st, .error (wrap_process e))
    | .ok kb =>
      match save_knowledge_base st chat_id kb with
      | (st1, .error e) => (st1, .error (wrap_process e))
      | (st1, .ok _) =>
        let chat : PDFChat :=
          { knowledge_base := kb
            messages := []
            metadata :=
              { file_path := some file_path
                file_name := file_path
                created_at := st1.now }
            created_at := st1.now }
        ({ st1 with chat_storage := alist_insert st1.chat_storage chat_id chat },
          .ok chat_id)

/-- The outer wrapper of `get_or_create_knowledge_base`:
`except Exception as e: raise RuntimeError(f"Failed to retrieve knowledge base: ...")`. -/
def wrap_retrieve : PyErr → PyErr
  | .valueError m => .runtimeError ("Failed to retrieve knowledge base: " ++ m)
  | .runtimeError m => .runtimeError ("Failed to retrieve knowledge base: " ++ m)

/-- `PDFProcessor.get_or_create_knowledge_base`: try the persisted index
first; if absent and a registered session carries a truthy
`metadata["file_path"]`, rebuild the index from that file (extract, chunk,
build), persist it under the same chat id and return it; otherwise return
`None`. -/
def get_or_create_knowledge_base (st : SysState) (chat_id : String) :
    SysState × Except PyErr (Option Index) :=
  match load_knowledge_base st.embeddings_store chat_id with
  | some kb => (st, .ok (some kb))
  | none =>
    match alist_lookup st.chat_storage chat_id with
    | some chat_data =>
      if truthy_file_path chat_data.metadata.file_path then
        match extract_text_from_pdf st.files (chat_data.metadata.file_path.getD "") with
        | .error e => (st, .error (wrap_retrieve e))
        | .ok text =>
          match create_knowledge_base text with
          | .error e => (st, .error (wrap_retrieve e))
          | .ok kb =>
            match save_knowledge_base st chat_id kb with
            | (st1, .error e) => (st1, .error (wrap_retrieve e))
            | (st1, .ok _) => (st1, .ok (some kb))
      else (st, .ok none)
    | none => (st, .ok none)

/-- External deletion of the persisted knowledge base artifact for a
session (e.g. the `.faiss` file removed from storage between two calls). -/
def delete_knowledge_base (st : SysState) (chat_id : String) : SysState :=
  { st with embeddings_store := alist_erase st.embeddings_store chat_id }

/-! ### `src/services/chat_service.py` — `ChatService` -/

/-- The observable provider interactions of one `get_response` call:
`searches` records `(query, k)` of every `similarity_search` invocation and
`prompts` the prompt of every `model.invoke` invocation, in order.  An
empty trace means neither retrieval nor the model was reached. -/
structure Trace where
  searches : List (String × Nat)
  prompts : List String
  deriving DecidableEq

/-- The empty trace. -/
def no_trace : Trace := ⟨[], []⟩

/-- The prompt `_call_model` builds from the retrieved context and the
verbatim question. -/
def mk_prompt (pdf_context user_question : String) : String :=
  "Context from PDF:\n" ++ pdf_context ++ "\n\nUser Question: " ++ user_question
    ++ "\n\nPlease provide a response based on the context above."

/-- The compiled workflow of `_create_workflow` streamed to completion: the
`search` node (`_search_chunks`: `similarity_search` on the raw question
with the provider-default `k = 4`, context = the documents' `page_content`
joined by single spaces in relevance order) followed by the `model` node
(`_call_model`: one `model.invoke` on the combined prompt).  Returns the
answer text and the provider-interaction trace. -/
def run_workflow (P : Providers) (kb : Index) (user_question : String) :
    String × Trace :=
  let docs := P.search kb.texts user_question 4
  let pdf_context := String.intercalate " " docs
  let prompt := mk_prompt pdf_context user_question
  let answer := P.llm prompt
  (answer, ⟨[(user_question, 4)], [prompt]⟩)

/-- The value `get_response` returns:
`{"response": answer, "chat_history": messages}`. -/
structure ChatResult where
  response : String
  chat_history : List ChatMessage
  deriving DecidableEq

/-- The outer wrapper of `get_response`: `except ValueError: raise` —
`except Exception as e: raise RuntimeError(f"Failed to process chat message: ...")`. -/
def wrap_chat : PyErr → PyErr
  | .valueError m => .valueError m
  | .runtimeError m => .runtimeError ("Failed to process chat message: " ++ m)

/-- `ChatService.get_response`: validate the inputs (Python
`not s.strip()`), look the session up, resolve the knowledge base via
`get_or_create_knowledge_base`, refresh the session's knowledge-base
reference, run the search→model workflow, append
`{"user": question, "ai": answer, "timestamp": now}` to the session's
history and store the updated session.  The returned state is the global
state as the call leaves it (also on error), the trace records the
provider interactions that actually happened. -/
def get_response (P : Providers) (st : SysState) (chat_id user_question : String) :
    SysState × Trace × Except PyErr ChatResult :=
  if py_strip chat_id = "" then
    (st, no_trace, .error (.valueError "Invalid chat ID"))
  else if py_strip user_question = "" then
    (st, no_trace, .error (.valueError "Invalid user question"))
  else
    match alist_lookup st.chat_storage chat_id with
    | none =>
      (st, no_trace, .error (.valueError ("Chat session not found for ID: " ++ chat_id)))
    | some chat_data =>
      match get_or_create_knowledge_base st chat_id with
      | (st1, .error e) => (st1, no_trace, .error (wrap_chat e))
      | (st1, .ok none) =>
        (st1, no_trace,
          .error (.valueError ("Knowledge base not found for chat ID: " ++ chat_id)))
      | (st1, .ok (some kb)) =>
        let wf := run_workflow P kb user_question
        let new_messages := chat_data.messages ++
          [{ user := user_question, ai := wf.1, timestamp := st1.now }]
        let chat2 : PDFChat :=
          { chat_data with knowledge_base := kb, messages := new_messages }
        ({ st1 with chat_storage := alist_insert st1.chat_storage chat_id chat2 },
          wf.2, .ok { response := wf.1, chat_history := new_messages })

/-- A sequence of chat calls on one session, stopping at the first failure;
returns the final state and, on success, each call's
`(response, chat_history)` in call order. -/
def run_chats (P : Providers) (st : SysState) (chat_id : String) :
    List String → SysState × Except PyErr (List (String × List ChatMessage))
  | [] => (st, .ok [])
  | q :: qs =>
    match get_response P st chat_id q with
    | (st1, _, .error e) => (st1, .error e)
    | (st1, _, .ok r) =>
      match run_chats P st1 chat_id qs with
      | (st2, .error e) => (st2, .error e)
      | (st2, .ok outs) => (st2, .ok ((r.response, r.chat_history) :: outs))

/-! ### `src/api/v1/endpoints/chat.py` — the boundary layer -/

/-- The client-visible outcome of `POST /v1/chat`: the endpoint catches
`ValueError` and re-raises it as `HTTPException(status_code=404)`; any
other exception escapes the handler and surfaces as the framework's
generic server failure. -/
inductive HttpOutcome
  | ok (r : ChatResult)
  | notFound (detail : String)
  | serverFailure (msg : String)
  deriving DecidableEq

/-- The `chat` endpoint: run `get_response` and map its exceptions to the
HTTP outcome. -/
def chat_endpoint (P : Providers) (st : SysState) (chat_id question : String) :
    SysState × Trace × HttpOutcome :=
  match get_response P st chat_id question with
  | (st1, tr, .ok r) => (st1, tr, .ok r)
  | (st1, tr, .error (.valueError m)) => (st1, tr, .notFound m)
  | (st1, tr, .error (.runtimeError m)) => (st1, tr, .serverFailure m)

/-! ### Concrete fixtures used by the witnesses -/

/-- A concrete provider instantiation: similarity search returns the first
`k` chunks, the model echoes a constant answer. -/
def P0 : Providers :=
  { search := fun texts _ k => texts.take k
    llm := fun _ => "the sky is blue" }

/-- A concrete PDF file: two pages with text, one empty page. -/
def pages0 : List (Except String String) := [.ok "The sky is blue. ", .ok "", .ok "Grass is green."]

/-- A registered session over `pages0` with its index persisted. -/
def chat0 : PDFChat :=
  { knowledge_base := ⟨["The sky is blue. Grass is green."]⟩
    messages := []
    metadata := { file_path := some "doc.pdf", file_name := "doc.pdf", created_at := 0 }
    created_at := 0 }

/-- A concrete system state: one session `"s0"`, its persisted index, and
the source file on disk. -/
def st0 : SysState :=
  { chat_storage := [("s0", chat0)]
    embeddings_store := [("s0", ⟨["The sky is blue. Grass is green."]⟩)]
    files := [("doc.pdf", pages0)]
    now := 7
    can_write := true }

/-! ### Helper lemmas -/

/-- Looking a key up after erasing it yields nothing. -/
lemma lookup_erase_self {α : Type} (l : List (String × α)) (key : String) :
    alist_lookup (alist_erase l key) key = none := by
  induction l with
  | nil => rfl
  | cons p rest ih =>
    rcases p with ⟨k, v⟩
    by_cases h : k = key
    · simpa [alist_erase, h] using ih
    · simpa [alist_erase, alist_lookup, h] using ih

/-- Looking a key up right after inserting it yields the inserted value. -/
lemma lookup_insert_self {α : Type} (l : List (String × α)) (key : String) (v : α) :
    alist_lookup (alist_insert l key v) key = some v := by
  induction l with
  | nil => simp [alist_insert, alist_lookup]
  | cons p rest ih =>
    rcases p with ⟨k, w⟩
    by_cases h : k = key
    · simp [alist_insert, alist_lookup, h]
    · simp [alist_insert, alist_lookup, h, ih]

/-- A string consisting only of Python whitespace strips to the empty
string. -/
lemma py_strip_all_space (s : String) (h : ∀ c ∈ s.data, is_py_space c) :
    py_strip s = "" := by
  unfold py_strip
  have h1 : s.data.dropWhile is_py_space = [] := List.dropWhile_eq_nil_iff.mpr h
  rw [h1]
  rfl

/-! ### Claim theorems -/

/-- C8: a chat call whose session id or question is the empty string fails
with the corresponding input-validation error, with the global state
untouched and an empty provider trace — so no session lookup result is
surfaced, and neither similarity search nor the model is invoked. -/
theorem C8_empty_input_rejected_before_work (P : Providers) (st : SysState)
    (chat_id q : String) (h : py_strip chat_id = "" ∨ py_strip q = "") :
    get_response P st chat_id q =
      (st, no_trace, .error (.valueError
        (if py_strip chat_id = "" then "Invalid chat ID" else "Invalid user question"))) := by
  unfold get_response
  rcases h with h | h
  · simp [h]
  · by_cases h2 : py_strip chat_id = "" <;> simp [h, h2]

/-- C8 witness: the empty session id on a populated state. -/
theorem C8_empty_input_rejected_before_work_witness :
    get_response P0 st0 "" "What color is the sky?" =
      (st0, no_trace, .error (.valueError
        (if py_strip "" = "" then "Invalid chat ID" else "Invalid user question"))) :=
  C8_empty_input_rejected_before_work P0 st0 "" "What color is the sky?" (Or.inl (by decide))

/-- C9: input validation strips the inputs, so a whitespace-only session
id is rejected exactly like the empty one ("Invalid chat ID", state
untouched, no provider interaction), and a whitespace-only question is
rejected exactly like the empty one ("Invalid user question"). -/
theorem C9_whitespace_only_input_rejected (P : Providers) (st : SysState)
    (chat_id q : String) :
    ((∀ c ∈ chat_id.data, is_py_space c) →
      get_response P st chat_id q = (st, no_trace, .error (.valueError "Invalid chat ID"))
      ∧ get_response P st chat_id q = get_response P st "" q)
    ∧ ((¬ py_strip chat_id = "") → (∀ c ∈ q.data, is_py_space c) →
      get_response P st chat_id q
          = (st, no_trace, .error (.valueError "Invalid user question"))
      ∧ get_response P st chat_id q = get_response P st chat_id "") := by
  constructor
  · intro hws
    have hid : py_strip chat_id = "" := py_strip_all_space chat_id hws
    constructor
    · unfold get_response; simp [hid]
    · unfold get_response; simp [hid]; rfl
  · intro hid hws
    have hq : py_strip q = "" := py_strip_all_space q hws
    constructor
    · unfold get_response; simp [hid, hq]
    · unfold get_response; simp [hid, hq]; rfl

/-- C9 witness: a space-and-tab session id and a space-only question. -/
theorem C9_whitespace_only_input_rejected_witness :
    (get_response P0 st0 " \t " "What color is the sky?"
        = (st0, no_trace, .error (.valueError "Invalid chat ID"))
      ∧ get_response P0 st0 " \t " "What color is the sky?"
        = get_response P0 st0 "" "What color is the sky?")
    ∧ (get_response P0 st0 "s0" " "
        = (st0, no_trace, .error (.valueError "Invalid user question"))
      ∧ get_response P0 st0 "s0" " " = get_response P0 st0 "s0" "") :=
  ⟨(C9_whitespace_only_input_rejected P0 st0 " \t " "What color is the sky?").1 (by decide),
   (C9_whitespace_only_input_rejected P0 st0 "s0" " ").2 (by decide) (by decide)⟩

/-- C10: knowledge-base resolution prefers the persisted index and never
consults the session registry when one exists — it returns the stored
index for any id whose artifact is on disk, registered session or not —
and when neither a persisted index nor a registered session with a truthy
stored file path exists it returns `None` without raising. -/
theorem C10_resolution_ignores_registry_and_returns_none (st : SysState)
    (chat_id : String) :
    (∀ kb, load_knowledge_base st.embeddings_store chat_id = some kb →
      get_or_create_knowledge_base st chat_id = (st, .ok (some kb)))
    ∧ (load_knowledge_base st.embeddings_store chat_id = none →
      (∀ c, alist_lookup st.chat_storage chat_id = some c →
        truthy_file_path c.metadata.file_path = false) →
      get_or_create_knowledge_base st chat_id = (st, .ok none)) := by
  constructor
  · intro kb hload
    unfold get_or_create_knowledge_base
    simp [hload]
  · intro hload hreg
    unfold get_or_create_knowledge_base
    rw [hload]
    cases hc : alist_lookup st.chat_storage chat_id with
    | none => rfl
    | some c => simp [hreg c hc]

/-- C10 witness: an id with a persisted index but no registered session,
and an id with neither. -/
theorem C10_resolution_ignores_registry_and_returns_none_witness :
    (get_or_create_knowledge_base { st0 with chat_storage := [] } "s0"
      = ({ st0 with chat_storage := [] }, .ok (some ⟨["The sky is blue. Grass is green."]⟩)))
    ∧ (get_or_create_knowledge_base st0 "unknown" = (st0, .ok none)) :=
  ⟨(C10_resolution_ignores_registry_and_returns_none
      { st0 with chat_storage := [] } "s0").1 _ (by decide),
   (C10_resolution_ignores_registry_and_returns_none st0 "unknown").2 (by decide)
      (by intro c hc; simp [st0, alist_lookup, chat0] at hc)⟩

/-- C2 counterexample: the claim says the unknown-session condition is the
only one surfaced with the not-found kind, but the boundary layer maps
every `ValueError` to a 404: the input-validation error for an empty chat
id is surfaced with the very same not-found kind as an unknown session. -/
theorem C2_not_found_not_exclusive_cex :
    chat_endpoint P0 st0 "" "What color is the sky?"
      = (st0, no_trace, .notFound "Invalid chat ID")
    ∧ chat_endpoint P0 st0 "unknown" "What color is the sky?"
      = (st0, no_trace, .notFound "Chat session not found for ID: unknown") := by
  constructor <;> decide

/-- C2 amended: a chat call with an unknown session id (and non-blank
inputs) fails with the not-found kind carrying the session-not-found
detail; however that kind is not exclusive to unknown sessions — blank
inputs are surfaced with the same not-found kind, because both conditions
raise `ValueError` and the boundary maps `ValueError` to 404.  Processing
failures (`RuntimeError`) are the ones surfaced as the distinct generic
kind. -/
theorem C2_unknown_session_not_found (P : Providers) (st : SysState)
    (chat_id q : String) (h1 : ¬ py_strip chat_id = "") (h2 : ¬ py_strip q = "")
    (h3 : alist_lookup st.chat_storage chat_id = none) :
    chat_endpoint P st chat_id q
      = (st, no_trace, .notFound ("Chat session not found for ID: " ++ chat_id))
    ∧ (∀ id' : String, py_strip id' = "" →
        chat_endpoint P st id' q = (st, no_trace, .notFound "Invalid chat ID"))
    ∧ (∀ (st' : SysState) (id' q' : String) (st'' : SysState) (tr : Trace) (m : String),
        get_response P st' id' q' = (st'', tr, .error (.runtimeError m)) →
        chat_endpoint P st' id' q' = (st'', tr, .serverFailure m)) := by
  refine ⟨?_, ?_, ?_⟩
  · unfold chat_endpoint get_response
    simp [h1, h2, h3]
  · intro id' hid
    unfold chat_endpoint get_response
    simp [hid]
  · intro st' id' q' st'' tr m h
    unfold chat_endpoint
    rw [h]

/-- C2 amended witness: an unknown session id on a populated state. -/
theorem C2_unknown_session_not_found_witness :
    chat_endpoint P0 st0 "unknown" "What color is the sky?"
      = (st0, no_trace, .notFound "Chat session not found for ID: unknown") :=
  (C2_unknown_session_not_found P0 st0 "unknown" "What color is the sky?"
    (by decide) (by decide) (by decide)).1

/-- A PDF with a page whose text extraction raises, between two pages that
extract fine. -/
def pages_err : List (Except String String) := [.ok "a", .error "boom", .ok "b"]

/-- C5 counterexample: the claim says a page whose extraction fails is
silently skipped without aborting the remaining pages, which would make
the extracted text `"ab"`; instead the failing page aborts the whole
extraction with a processing error. -/
theorem C5_failing_page_aborts_cex :
    extract_text_from_pdf [("f", pages_err)] "f"
      = .error (.runtimeError "Failed to extract text from PDF: boom")
    ∧ ¬ extract_text_from_pdf [("f", pages_err)] "f" = .ok "ab" := by
  constructor <;> decide

/-- Concatenation of a list of strings. -/
def concat_texts : List String → String
  | [] => ""
  | t :: rest => t ++ concat_texts rest

/-- The text a PDF's pages yield: the concatenation, in page order, of the
non-empty extracted page texts (pages yielding no text contribute
nothing). -/
def pages_text (pages : List (Except String String)) : String :=
  concat_texts (pages.filterMap fun p =>
    match p with
    | .ok t => if t = "" then none else some t
    | .error _ => none)

/-- When every page extracts, the join concatenates the non-empty page
texts in order. -/
lemma join_pages_all_ok (pages : List (Except String String))
    (h : ∀ p ∈ pages, ∃ t, p = .ok t) :
    join_pages pages = .ok (pages_text pages) := by
  induction pages with
  | nil => rfl
  | cons p rest ih =>
    obtain ⟨t, rfl⟩ := h p (by simp)
    have hrest := ih (fun p hp => h p (by simp [hp]))
    by_cases ht : t = ""
    · simp [join_pages, hrest, ht, pages_text, List.filterMap_cons]
    · simp [join_pages, hrest, ht, pages_text, List.filterMap_cons, concat_texts]

/-- A page whose extraction raises makes the whole join raise. -/
lemma join_pages_has_err (pages : List (Except String String)) :
    (∃ m, Except.error m ∈ pages) → ∃ e, join_pages pages = .error e := by
  induction pages with
  | nil => intro h; obtain ⟨m, hm⟩ := h; cases hm
  | cons p rest ih =>
    intro h
    cases p with
    | error e => exact ⟨e, rfl⟩
    | ok t =>
      obtain ⟨m, hm⟩ := h
      have hr : ∃ m, Except.error m ∈ rest := by
        cases List.mem_cons.mp hm with
        | inl h1 => exact Except.noConfusion h1
        | inr h2 => exact ⟨m, h2⟩
      obtain ⟨e, he⟩ := ih hr
      exact ⟨e, by simp [join_pages, he]⟩

/-- C5 amended: extraction goes page by page and concatenates only pages
yielding non-empty text — pages with no text are silently skipped — but
only when no page raises: a page whose extraction raises aborts the
extraction of the whole file with a processing error instead of being
skipped. -/
theorem C5_pages_skipped_unless_raise (files : List (String × List (Except String String)))
    (path : String) (pages : List (Except String String))
    (hf : alist_lookup files path = some pages) :
    ((∀ p ∈ pages, ∃ t, p = .ok t) →
      extract_text_from_pdf files path = .ok (pages_text pages))
    ∧ ((∃ m, Except.error m ∈ pages) →
      ∃ m, extract_text_from_pdf files path = .error (.runtimeError m)) := by
  constructor
  · intro h
    simp [extract_text_from_pdf, hf, join_pages_all_ok pages h]
  · intro h
    obtain ⟨e, he⟩ := join_pages_has_err pages h
    exact ⟨"Failed to extract text from PDF: " ++ e,
      by simp [extract_text_from_pdf, hf, he]⟩

/-- C5 amended witness: the all-extracting file skips its empty page; the
file with a raising page fails. -/
theorem C5_pages_skipped_unless_raise_witness :
    (extract_text_from_pdf st0.files "doc.pdf" = .ok (pages_text pages0))
    ∧ (∃ m, extract_text_from_pdf [("f", pages_err)] "f"
        = .error (.runtimeError m)) :=
  ⟨(C5_pages_skipped_unless_raise st0.files "doc.pdf" pages0 (by decide)).1
      (by intro p hp; fin_cases hp <;> exact ⟨_, rfl⟩),
   (C5_pages_skipped_unless_raise [("f", pages_err)] "f" pages_err (by decide)).2
      ⟨"boom", by decide⟩⟩

/-- C3: a `process_pdf` call that fails at any step (extraction, chunking
and index build, or persistence) raises a processing error
(`RuntimeError`) and leaves the session registry exactly as it was — no
partial session is registered; in particular a PDF whose extracted text is
empty fails this way (the empty chunk sequence aborts the index build). -/
theorem C3_failed_ingestion_registers_nothing (st : SysState)
    (chat_id file_path : String) :
    (∀ e, (process_pdf st chat_id file_path).2 = .error e →
      (process_pdf st chat_id file_path).1.chat_storage = st.chat_storage
      ∧ ∃ m, e = .runtimeError m)
    ∧ (extract_text_from_pdf st.files file_path = .ok "" →
      (∃ m, (process_pdf st chat_id file_path).2 = .error (.runtimeError m))
      ∧ (process_pdf st chat_id file_path).1.chat_storage = st.chat_storage) := by
  constructor
  · intro e he
    cases hext : extract_text_from_pdf st.files file_path with
    | error e1 =>
      constructor
      · simp [process_pdf, hext]
      · have h2 : wrap_process e1 = e := by simpa [process_pdf, hext] using he
        cases e1 <;> simp [wrap_process] at h2 <;> exact ⟨_, h2.symm⟩
    | ok text =>
      cases hkb : create_knowledge_base text with
      | error e1 =>
        constructor
        · simp [process_pdf, hext, hkb]
        · have h2 : wrap_process e1 = e := by simpa [process_pdf, hext, hkb] using he
          cases e1 <;> simp [wrap_process] at h2 <;> exact ⟨_, h2.symm⟩
      | ok kb =>
        by_cases hw : st.can_write
        · exact absurd he (by simp [process_pdf, hext, hkb, save_knowledge_base, hw])
        · constructor
          · simp [process_pdf, hext, hkb, save_knowledge_base, hw]
          · have h2 : wrap_process
                (.runtimeError "Failed to save knowledge base: write failed") = e := by
              simpa [process_pdf, hext, hkb, save_knowledge_base, hw] using he
            simp [wrap_process] at h2
            exact ⟨_, h2.symm⟩
  · intro hext
    have hkb : create_knowledge_base "" =
        .error (.runtimeError "Failed to create knowledge base: list index out of range") := by
      decide
    constructor
    · exact ⟨"Failed to process PDF: Failed to create knowledge base: list index out of range",
        by simp [process_pdf, hext, hkb, wrap_process]⟩
    · simp [process_pdf, hext, hkb]

/-- C3 witness: a PDF all of whose pages extract to empty text. -/
theorem C3_failed_ingestion_registers_nothing_witness :
    (∃ m, (process_pdf
        { chat_storage := [], embeddings_store := [],
          files := [("e.pdf", [Except.ok ""])], now := 0, can_write := true }
        "fresh-id" "e.pdf").2 = .error (.runtimeError m))
    ∧ (process_pdf
        { chat_storage := [], embeddings_store := [],
          files := [("e.pdf", [Except.ok ""])], now := 0, can_write := true }
        "fresh-id" "e.pdf").1.chat_storage = [] :=
  (C3_failed_ingestion_registers_nothing
    { chat_storage := [], embeddings_store := [],
      files := [("e.pdf", [Except.ok ""])], now := 0, can_write := true }
    "fresh-id" "e.pdf").2 (by decide)

/-- String concatenation is associative. -/
lemma str_assoc (a b c : String) : (a ++ b) ++ c = a ++ (b ++ c) := by
  rcases a with ⟨la⟩; rcases b with ⟨lb⟩; rcases c with ⟨lc⟩
  show String.mk ((la ++ lb) ++ lc) = String.mk (la ++ (lb ++ lc))
  rw [List.append_assoc]

/-- C7: a successful chat call performs exactly one similarity search, on
the raw question with the provider-default `k = 4`; the context passed to
generation is the returned chunk texts joined in relevance order by single
spaces; and the model is invoked exactly once, on a single prompt that
contains that context string and the verbatim question. -/
theorem C7_one_search_one_model_call (P : Providers) (st : SysState)
    (chat_id q : String) (st' : SysState) (tr : Trace) (r : ChatResult)
    (h : get_response P st chat_id q = (st', tr, .ok r)) :
    ∃ kb : Index,
      (get_or_create_knowledge_base st chat_id).2 = .ok (some kb)
      ∧ tr = ⟨[(q, 4)],
          [mk_prompt (String.intercalate " " (P.search kb.texts q 4)) q]⟩
      ∧ r.response = P.llm (mk_prompt (String.intercalate " " (P.search kb.texts q 4)) q)
      ∧ (∃ a b, mk_prompt (String.intercalate " " (P.search kb.texts q 4)) q
          = a ++ String.intercalate " " (P.search kb.texts q 4) ++ b)
      ∧ (∃ c d, mk_prompt (String.intercalate " " (P.search kb.texts q 4)) q
          = c ++ q ++ d) := by
  unfold get_response at h
  by_cases h1 : py_strip chat_id = ""
  · simp [h1] at h
  · by_cases h2 : py_strip q = ""
    · simp [h1, h2] at h
    · rw [if_neg h1, if_neg h2] at h
      cases hc : alist_lookup st.chat_storage chat_id with
      | none => rw [hc] at h; simp at h
      | some chat_data =>
        rw [hc] at h
        rcases hgoc : get_or_create_knowledge_base st chat_id with ⟨st1, res⟩
        rw [hgoc] at h
        cases res with
        | error e => simp at h
        | ok o =>
          cases o with
          | none => simp at h
          | some kb =>
            simp only [run_workflow, Prod.mk.injEq] at h
            obtain ⟨hst, htr, hres⟩ := h
            have hr2 := Except.ok.inj hres
            refine ⟨kb, by simp [hgoc], htr.symm, ?_, ?_, ?_⟩
            · rw [← hr2]
            · exact ⟨"Context from PDF:\n",
                "\n\nUser Question: " ++ q
                  ++ "\n\nPlease provide a response based on the context above.",
                by simp [mk_prompt, str_assoc]⟩
            · exact ⟨"Context from PDF:\n"
                  ++ String.intercalate " " (P.search kb.texts q 4)
                  ++ "\n\nUser Question: ",
                "\n\nPlease provide a response based on the context above.",
                by simp [mk_prompt, str_assoc]⟩

/-- C7 witness: the single-chunk end-to-end scenario of the spec. -/
theorem C7_one_search_one_model_call_witness :
    ∃ kb : Index,
      (get_or_create_knowledge_base st0 "s0").2 = .ok (some kb)
      ∧ (get_response P0 st0 "s0" "What color is the sky?").2.1 = ⟨[("What color is the sky?", 4)],
          [mk_prompt (String.intercalate " "
            (P0.search kb.texts "What color is the sky?" 4)) "What color is the sky?"]⟩
      ∧ ({ response := "the sky is blue",
           chat_history := [⟨"What color is the sky?", "the sky is blue", 7⟩] }
            : ChatResult).response
          = P0.llm (mk_prompt (String.intercalate " "
              (P0.search kb.texts "What color is the sky?" 4)) "What color is the sky?")
      ∧ (∃ a b, mk_prompt (String.intercalate " "
            (P0.search kb.texts "What color is the sky?" 4)) "What color is the sky?"
          = a ++ String.intercalate " "
              (P0.search kb.texts "What color is the sky?" 4) ++ b)
      ∧ (∃ c d, mk_prompt (String.intercalate " "
            (P0.search kb.texts "What color is the sky?" 4)) "What color is the sky?"
          = c ++ "What color is the sky?" ++ d) := by
  have h : get_response P0 st0 "s0" "What color is the sky?"
      = ((get_response P0 st0 "s0" "What color is the sky?").1,
         (get_response P0 st0 "s0" "What color is the sky?").2.1,
         .ok { response := "the sky is blue",
               chat_history := [⟨"What color is the sky?", "the sky is blue", 7⟩] }) := by
    decide
  exact C7_one_search_one_model_call P0 st0 "s0" "What color is the sky?" _ _ _ h

/-- C1: when the persisted knowledge base of a registered session has been
deleted from storage, the next chat call transparently rebuilds the index
from the session's stored source file path — the extraction and
chunk-and-build steps produce the same index the store held — persists it
under the same session id, and the call succeeds with exactly the answer,
history and retrieval trace the call produced before the deletion. -/
theorem C1_rebuild_after_deletion (P : Providers) (st : SysState)
    (chat_id q path text : String) (chat : PDFChat) (kb : Index)
    (h1 : ¬ py_strip chat_id = "") (h2 : ¬ py_strip q = "")
    (hchat : alist_lookup st.chat_storage chat_id = some chat)
    (hfp : chat.metadata.file_path = some path) (hpne : ¬ path = "")
    (hload : load_knowledge_base st.embeddings_store chat_id = some kb)
    (hext : extract_text_from_pdf st.files path = .ok text)
    (hkbt : create_knowledge_base text = .ok kb)
    (hw : st.can_write = true) :
    (get_response P (delete_knowledge_base st chat_id) chat_id q).2
      = (get_response P st chat_id q).2
    ∧ (∃ r, (get_response P st chat_id q).2.2 = .ok r)
    ∧ load_knowledge_base
        (get_response P (delete_knowledge_base st chat_id) chat_id q).1.embeddings_store
        chat_id = some kb := by
  have hload2 : alist_lookup st.embeddings_store chat_id = some kb := hload
  refine ⟨?_, ?_, ?_⟩
  · simp [get_response, h1, h2, hchat, delete_knowledge_base,
      get_or_create_knowledge_base, load_knowledge_base, lookup_erase_self, hload2,
      hfp, truthy_file_path, hpne, hext, hkbt, save_knowledge_base, hw]
  · exact ⟨{ response := (run_workflow P kb q).1,
             chat_history := chat.messages
               ++ [{ user := q, ai := (run_workflow P kb q).1, timestamp := st.now }] },
      by simp [get_response, h1, h2, hchat, get_or_create_knowledge_base,
        load_knowledge_base, hload2]⟩
  · simp [get_response, h1, h2, hchat, delete_knowledge_base,
      get_or_create_knowledge_base, load_knowledge_base, lookup_erase_self,
      hfp, truthy_file_path, hpne, hext, hkbt, save_knowledge_base, hw,
      lookup_insert_self]

/-- C1 witness: the fixture session with its persisted single-chunk
index. -/
theorem C1_rebuild_after_deletion_witness :
    (get_response P0 (delete_knowledge_base st0 "s0") "s0" "What color is the sky?").2
      = (get_response P0 st0 "s0" "What color is the sky?").2
    ∧ (∃ r, (get_response P0 st0 "s0" "What color is the sky?").2.2 = .ok r)
    ∧ load_knowledge_base
        (get_response P0 (delete_knowledge_base st0 "s0") "s0"
          "What color is the sky?").1.embeddings_store "s0"
      = some ⟨["The sky is blue. Grass is green."]⟩ :=
  C1_rebuild_after_deletion P0 st0 "s0" "What color is the sky?" "doc.pdf"
    "The sky is blue. Grass is green." chat0 ⟨["The sky is blue. Grass is green."]⟩
    (by decide) (by decide) (by decide) (by decide) (by decide) (by decide)
    (by decide) (by decide) (by decide)

/-- Knowledge-base resolution never touches the session registry, the
clock, the file system or disk writability. -/
lemma get_or_create_preserves (st : SysState) (chat_id : String) :
    (get_or_create_knowledge_base st chat_id).1.chat_storage = st.chat_storage
    ∧ (get_or_create_knowledge_base st chat_id).1.now = st.now := by
  unfold get_or_create_knowledge_base
  cases hl : load_knowledge_base st.embeddings_store chat_id with
  | some kb => exact ⟨rfl, rfl⟩
  | none =>
    dsimp only
    cases hc : alist_lookup st.chat_storage chat_id with
    | none => exact ⟨rfl, rfl⟩
    | some chat_data =>
      dsimp only
      by_cases ht : truthy_file_path chat_data.metadata.file_path
      · rw [if_pos ht]
        cases he : extract_text_from_pdf st.files (chat_data.metadata.file_path.getD "") with
        | error e => exact ⟨rfl, rfl⟩
        | ok text =>
          dsimp only
          cases hk : create_knowledge_base text with
          | error e => exact ⟨rfl, rfl⟩
          | ok kb =>
            dsimp only
            unfold save_knowledge_base
            by_cases hw : st.can_write
            · rw [if_pos hw]
              exact ⟨rfl, rfl⟩
            · rw [if_neg hw]
              exact ⟨rfl, rfl⟩
      · rw [if_neg ht]
        exact ⟨rfl, rfl⟩

/-- The shape of a successful chat call: the session existed at call time,
the returned history is the session's previous history with exactly one
new `{question, answer, timestamp}` entry appended at the end, and the
stored session's history afterwards is exactly the returned history. -/
lemma get_response_ok_history (P : Providers) (st : SysState) (chat_id q : String)
    (st' : SysState) (tr : Trace) (r : ChatResult)
    (h : get_response P st chat_id q = (st', tr, .ok r)) :
    ∃ chat : PDFChat,
      alist_lookup st.chat_storage chat_id = some chat
      ∧ r.chat_history = chat.messages ++ [⟨q, r.response, st.now⟩]
      ∧ ∃ chat2 : PDFChat, alist_lookup st'.chat_storage chat_id = some chat2
          ∧ chat2.messages = r.chat_history := by
  unfold get_response at h
  by_cases h1 : py_strip chat_id = ""
  · simp [h1] at h
  · by_cases h2 : py_strip q = ""
    · simp [h1, h2] at h
    · rw [if_neg h1, if_neg h2] at h
      cases hc : alist_lookup st.chat_storage chat_id with
      | none => rw [hc] at h; simp at h
      | some chat_data =>
        rw [hc] at h
        rcases hgoc : get_or_create_knowledge_base st chat_id with ⟨st1, res⟩
        rw [hgoc] at h
        cases res with
        | error e => simp at h
        | ok o =>
          cases o with
          | none => simp at h
          | some kb =>
            have hfst : (get_or_create_knowledge_base st chat_id).1 = st1 := by
              rw [hgoc]
            have hnow : st1.now = st.now := by
              rw [← hfst]; exact (get_or_create_preserves st chat_id).2
            simp only [Prod.mk.injEq] at h
            obtain ⟨hst, _htr, hres⟩ := h
            have hr2 := Except.ok.inj hres
            refine ⟨chat_data, rfl, ?_, ?_⟩
            · rw [← hr2, hnow]
            · refine ⟨{ knowledge_base := kb,
                        messages := chat_data.messages
                          ++ [{ user := q, ai := (run_workflow P kb q).1,
                                timestamp := st1.now }],
                        metadata := chat_data.metadata,
                        created_at := chat_data.created_at }, ?_, ?_⟩
              · rw [← hst]
                exact lookup_insert_self _ _ _
              · rw [← hr2]

/-- The shape of a successful run of `N` chat calls on one session,
starting from any stored history: exactly `N` new entries are appended, in
call order, the `i`-th new entry's question is the `i`-th question asked,
and the `i`-th call returned its answer together with the full history up
to and including its own entry. -/
lemma run_chats_history (P : Providers) (qs : List String) :
    ∀ (st : SysState) (chat_id : String) (chat : PDFChat) (st' : SysState)
      (outs : List (String × List ChatMessage)),
      alist_lookup st.chat_storage chat_id = some chat →
      run_chats P st chat_id qs = (st', .ok outs) →
      ∃ new : List ChatMessage,
        new.length = qs.length
        ∧ (∃ chat' : PDFChat, alist_lookup st'.chat_storage chat_id = some chat'
            ∧ chat'.messages = chat.messages ++ new)
        ∧ outs.length = qs.length
        ∧ ∀ i, i < qs.length →
            ∃ mi qi oi, new.get? i = some mi ∧ qs.get? i = some qi
              ∧ outs.get? i = some oi ∧ mi.user = qi
              ∧ oi = (mi.ai, chat.messages ++ new.take (i + 1)) := by
  induction qs with
  | nil =>
    intro st chat_id chat st' outs hc h
    unfold run_chats at h
    simp only [Prod.mk.injEq] at h
    obtain ⟨hst, houts⟩ := h
    have houts2 := Except.ok.inj houts
    refine ⟨[], rfl, ⟨chat, by rw [← hst]; exact hc, by simp⟩, by simp [← houts2], ?_⟩
    intro i hi
    simp at hi
  | cons q qs ih =>
    intro st chat_id chat st' outs hc h
    unfold run_chats at h
    rcases hg : get_response P st chat_id q with ⟨st1, tr1, res1⟩
    rw [hg] at h
    cases res1 with
    | error e => simp at h
    | ok r =>
      dsimp only at h
      rcases hrun : run_chats P st1 chat_id qs with ⟨st2, res2⟩
      rw [hrun] at h
      cases res2 with
      | error e => simp at h
      | ok outs' =>
        simp only [Prod.mk.injEq] at h
        obtain ⟨hst2, houts⟩ := h
        have houts2 := Except.ok.inj houts
        obtain ⟨chatA, hcA, hhist, chat2, hc2, hmsg2⟩ :=
          get_response_ok_history P st chat_id q st1 tr1 r hg
        have hAeq : chat = chatA := Option.some.inj (hc.symm.trans hcA)
        subst hAeq
        obtain ⟨new', hlen', ⟨chat'', hc'', hmsg''⟩, hlenouts', hidx'⟩ :=
          ih st1 chat_id chat2 st2 outs' hc2 hrun
        refine ⟨⟨q, r.response, st.now⟩ :: new', by simp [hlen'], ?_, ?_, ?_⟩
        · refine ⟨chat'', by rw [← hst2]; exact hc'', ?_⟩
          simp [hmsg'', hmsg2, hhist]
        · rw [← houts2]
          simp [hlenouts']
        · intro i hi
          cases i with
          | zero =>
            refine ⟨⟨q, r.response, st.now⟩, q, (r.response, r.chat_history),
              rfl, rfl, by simp [← houts2], rfl, ?_⟩
            rw [hhist]
            rfl
          | succ j =>
            have hj : j < qs.length := by simpa using hi
            obtain ⟨mi, qi, oi, hmi, hqi, hoi, hui, hoeq⟩ := hidx' j hj
            refine ⟨mi, qi, oi, by simpa using hmi, by simpa using hqi,
              by rw [← houts2]; simpa using hoi, hui, ?_⟩
            rw [hoeq, hmsg2, hhist, List.append_assoc]
            rfl

/-- C4: after `N` successful chat calls on a freshly ingested session
(empty initial history), the stored history has exactly `N` entries, in
call order — the `i`-th entry is the `{question, answer, timestamp}`
record of the `i`-th call, so no call removes or reorders earlier entries
— and each call returned its answer together with the full updated
history, namely the first `i + 1` entries. -/
theorem C4_history_append_only (P : Providers) (st : SysState) (chat_id : String)
    (qs : List String) (st' : SysState) (outs : List (String × List ChatMessage))
    (chat : PDFChat)
    (h0 : alist_lookup st.chat_storage chat_id = some chat)
    (h1 : chat.messages = [])
    (h : run_chats P st chat_id qs = (st', .ok outs)) :
    ∃ hist : List ChatMessage,
      (∃ chat' : PDFChat, alist_lookup st'.chat_storage chat_id = some chat'
        ∧ chat'.messages = hist)
      ∧ hist.length = qs.length
      ∧ outs.length = qs.length
      ∧ ∀ i, i < qs.length →
          ∃ mi qi oi, hist.get? i = some mi ∧ qs.get? i = some qi
            ∧ outs.get? i = some oi ∧ mi.user = qi
            ∧ oi = (mi.ai, hist.take (i + 1)) := by
  obtain ⟨new, hlen, ⟨chat', hc', hmsg'⟩, hlenouts, hidx⟩ :=
    run_chats_history P qs st chat_id chat st' outs h0 h
  rw [h1] at hmsg' hidx
  simp only [List.nil_append] at hmsg' hidx
  exact ⟨new, ⟨chat', hc', hmsg'⟩, hlen, hlenouts, hidx⟩

/-- C4 witness: two successful calls on the fixture session. -/
theorem C4_history_append_only_witness :
    ∃ hist : List ChatMessage,
      (∃ chat' : PDFChat,
        alist_lookup (run_chats P0 st0 "s0" ["What color is the sky?",
          "What color is grass?"]).1.chat_storage "s0" = some chat'
        ∧ chat'.messages = hist)
      ∧ hist.length = (["What color is the sky?", "What color is grass?"] : List String).length
      ∧ ([("the sky is blue", [⟨"What color is the sky?", "the sky is blue", 7⟩]),
          ("the sky is blue", [⟨"What color is the sky?", "the sky is blue", 7⟩,
            ⟨"What color is grass?", "the sky is blue", 7⟩])]
          : List (String × List ChatMessage)).length
        = (["What color is the sky?", "What color is grass?"] : List String).length
      ∧ ∀ i, i < (["What color is the sky?", "What color is grass?"] : List String).length →
          ∃ mi qi oi, hist.get? i = some mi
            ∧ (["What color is the sky?", "What color is grass?"] : List String).get? i = some qi
            ∧ ([("the sky is blue", [⟨"What color is the sky?", "the sky is blue", 7⟩]),
                ("the sky is blue", [⟨"What color is the sky?", "the sky is blue", 7⟩,
                  ⟨"What color is grass?", "the sky is blue", 7⟩])]
                : List (String × List ChatMessage)).get? i = some oi
            ∧ mi.user = qi ∧ oi = (mi.ai, hist.take (i + 1)) :=
  C4_history_append_only P0 st0 "s0" ["What color is the sky?", "What color is grass?"]
    (run_chats P0 st0 "s0" ["What color is the sky?", "What color is grass?"]).1
    [("the sky is blue", [⟨"What color is the sky?", "the sky is blue", 7⟩]),
     ("the sky is blue", [⟨"What color is the sky?", "the sky is blue", 7⟩,
       ⟨"What color is grass?", "the sky is blue", 7⟩])]
    chat0 (by decide) (by decide) (by decide)

/-- A 1001-character separator-free line. -/
def long_line : String := String.mk (List.replicate 1001 'a')

/-- Two 600-character pieces joined by one separator. -/
def two_pieces : String :=
  String.mk (List.replicate 600 'a') ++ "\n" ++ String.mk (List.replicate 600 'b')

/-- C6 counterexample: three inputs on which the claimed chunking
properties fail.  A whitespace-only (hence non-empty) text yields zero
chunks, so no re-concatenation of the chunks reconstructs it; a
separator-free 1001-character line is kept whole as a single chunk longer
than `chunk_size = 1000`; and two 600-character lines yield two chunks
that share no characters at all rather than exactly
`chunk_overlap = 200`, although the pair is not at the end of the text's
chunking. -/
theorem C6_chunking_claims_fail_cex :
    (split_text " " = [] ∧ ¬ (" " = "") ∧ ¬ concat_texts (split_text " ") = " ")
    ∧ (split_text long_line = [long_line] ∧ 1000 < long_line.length)
    ∧ (split_text two_pieces
        = [String.mk (List.replicate 600 'a'), String.mk (List.replicate 600 'b')]
      ∧ ¬ (List.replicate 600 'b').take 200 = (List.replicate 600 'a').drop 400) := by
  decide

/-- Merging a single piece that joins back to itself yields that piece as
the only chunk. -/
lemma merge_single (chunk_size chunk_overlap : Nat) (sep t : String)
    (hj : join_docs [t] sep = some t) :
    merge_go chunk_size chunk_overlap sep [t] [] 0 [] = [t] := by
  simp only [merge_go]
  simp [hj]

/-- C6 amended: the chunker yields an empty chunk sequence on empty input;
and for a separator-free, whitespace-trimmed, non-empty text of at most
`chunk_size` characters the output is the single chunk equal to the text,
so re-concatenation reconstructs it there.  The unrestricted claims fail:
empty separator pieces are dropped and every chunk is whitespace-stripped
(so re-concatenation cannot reconstruct texts with consecutive separators
or surrounding whitespace), a single separator-delimited piece longer than
`chunk_size` is kept whole as an oversized chunk, and overlap is carried
as whole trailing pieces totalling at most `chunk_overlap` characters, not
exactly `chunk_overlap`. -/
theorem C6_chunking_holds_restricted (text : String)
    (h1 : split_on_char '\n' text.data = [text.data])
    (h2 : ¬ text.length > 1000)
    (h3 : py_strip text = text)
    (h4 : ¬ text = "") :
    split_text text = [text] ∧ split_text "" = [] := by
  constructor
  · unfold split_text split_text_with
    dsimp only
    rw [h1]
    have hmk : String.mk text.data = text := by rcases text with ⟨l⟩; rfl
    have hfil : ((([text.data] : List (List Char)).map String.mk).filter
        (fun s => ¬ s = "")) = [text] := by
      simp [hmk, h4]
    rw [hfil]
    have hj : join_docs [text] "\n" = some text := by
      unfold join_docs
      dsimp only
      rw [show String.intercalate "\n" [text] = text from rfl, h3, if_neg h4]
    exact merge_single 1000 200 "\n" text hj
  · decide

/-- C6 amended witness: the spec's end-to-end sentence as a single
chunk. -/
theorem C6_chunking_holds_restricted_witness :
    split_text "The sky is blue. Grass is green."
      = ["The sky is blue. Grass is green."]
    ∧ split_text "" = [] :=
  C6_chunking_holds_restricted "The sky is blue. Grass is green."
    (by decide) (by decide) (by decide) (by decide)

end PdfBot
